import Mathlib

/-!
Shallow embedding of the MA GIS USE_CODE analyzer core (`src/app.py`):
the reference-code loader (`load_classification_codes`), the analysis
orchestrator (`analyze_gdb`), and the spatial neighbor-voting engine
(`perform_spatial_analysis`), together with theorems checking the
specification's claims about them.

Conventions of the embedding:
- Python strings are `String`; `s[:3]` is `trunc3`.
- Coordinates are `ℚ` (the code only compares and passes them through).
- Calls into the geometry/CRS libraries (shapely / pyproj via geopandas)
  are parameters collected in a `GeoEnv` record: centroid extraction,
  buffer-intersection tests, CRS presence and point reprojection.
  A reprojection failure (exception inside `to_crs`, caught at
  app.py:233-235) is `Option.none`; an exception raised by the geometry
  buffer call (caught by the per-property handler at app.py:292-294) is
  modelled by the `bufferFault` flag and surfaces as `Except.error`.
- Python `collections.Counter(xs).most_common(1)` is
  `most_common1 (counterItems xs)`: `counterItems` lists each distinct
  element in first-occurrence order with its multiplicity (dict insertion
  order), and `most_common1` returns the first entry of maximal count,
  which is `heapq.nlargest`'s stable tie-break.
- The global mutable dict `processing_progress` becomes an explicit
  `Progress` state; the writes performed during one run are collected in
  order by `runProgress` (empty when the code never touches the state).
-/

namespace MAGIS

/-- Python `s[:3]` — keep only the first 3 characters (app.py:122,170). -/
def trunc3 (s : String) : String := ⟨s.data.take 3⟩

/-- One row of the assessment attribute layer (geometry column dropped). -/
structure Assessment where
  loc_id : String
  prop_id : String
  site_addr : String
  use_code : String
deriving Repr, DecidableEq

/-- One row of the parcel geometry layer; `gid` identifies the geometry
object held by the geometry library. -/
structure Parcel where
  loc_id : String
  gid : Nat
deriving Repr, DecidableEq

/-- One row of `all_parcels_gdf`, the inner merge of parcels with
assessments on `LOC_ID` (app.py:167). -/
structure JoinedRow where
  loc_id : String
  prop_id : String
  site_addr : String
  use_code : String
  gid : Nat
deriving Repr, DecidableEq

/-- The geometry/CRS library calls made by `perform_spatial_analysis`,
abstracted as data.  `transform (x, y)` returns the reprojected
`(lng, lat)` (shapely points are x=lng, y=lat after `to_crs`), or `none`
when `to_crs` raises.  `bufferIntersects i j` says whether geometry `j`
intersects the 100-unit buffer around geometry `i`.  `bufferFault i`
injects an exception at the `buffer(100)` call for geometry `i`. -/
structure GeoEnv where
  hasCrs : Bool
  transform : ℚ × ℚ → Option (ℚ × ℚ)
  hasCentroid : Nat → Bool
  centroidX : Nat → ℚ
  centroidY : Nat → ℚ
  bufferIntersects : Nat → Nat → Bool
  bufferFault : Nat → Bool

/-- The emitted suggestion record (app.py:278-290). -/
structure Suggestion where
  id : String
  prop_id : String
  loc_id : String
  address : String
  current_code : String
  suggested_code : String
  confidence : ℚ
  description : String
  lat : ℚ
  lng : ℚ
  nearby_count : Nat
deriving Repr, DecidableEq

/-- `dict.get(k, default)` on a dict built by `dict(zip(keys, vals))`:
the last binding of a duplicated key wins. -/
def dictGet (d : List (String × String)) (k default : String) : String :=
  match (d.filter (fun p => p.1 == k)).getLast? with
  | some p => p.2
  | none => default

/-- Distinct elements of `l` in first-occurrence order — the key order of
`collections.Counter(l)` (Python dict insertion order). -/
def dedupFirst : List String → List String
  | [] => []
  | c :: rest => c :: (dedupFirst rest).filter (fun x => x != c)

/-- `Counter(l).items()`: each distinct element with its multiplicity,
in first-occurrence order. -/
def counterItems (l : List String) : List (String × Nat) :=
  (dedupFirst l).map (fun c => (c, l.count c))

/-- `Counter.most_common(1)` head: the first item of maximal count
(`heapq.nlargest` is stable, so ties go to the earliest-inserted key). -/
def most_common1 : List (String × Nat) → Option (String × Nat)
  | [] => none
  | it :: rest =>
    match most_common1 rest with
    | none => some it
    | some b => if b.2 > it.2 then some b else some it

/-- Inner merge of parcel geometries with assessment attributes on the
stringified `LOC_ID` (app.py:163-167), followed by the post-join
re-truncation of `USE_CODE` to 3 characters (app.py:170). -/
def mergeParcels (parcels : List Parcel) (assessment : List Assessment) :
    List JoinedRow :=
  parcels.flatMap (fun p =>
    (assessment.filter (fun a => a.loc_id == p.loc_id)).map (fun a =>
      { loc_id := p.loc_id
        prop_id := a.prop_id
        site_addr := a.site_addr
        use_code := trunc3 a.use_code
        gid := p.gid }))

/-- The centroid-normalization block (app.py:212-238): small coordinates
are taken as already geographic (`lat = y, lng = x`); large ones are
reprojected via the dataset CRS when present; missing CRS or a
reprojection failure yields `none` (property skipped). -/
def normalizeCoords (env : GeoEnv) (x y : ℚ) : Option (ℚ × ℚ) :=
  if |x| > 1000 ∨ |y| > 1000 then
    if env.hasCrs then
      match env.transform (x, y) with
      | some (lng, lat) => some (lat, lng)
      | none => none
    else none
  else some (y, x)

/-- Buffer query plus self-exclusion (app.py:249-254): all joined rows
whose geometry intersects the 100-unit buffer around the subject
geometry `pg`, minus every row carrying the subject's location key. -/
def nearbyParcels (env : GeoEnv) (joined : List JoinedRow)
    (pg : JoinedRow) (row : Assessment) : List JoinedRow :=
  (joined.filter (fun r => env.bufferIntersects pg.gid r.gid)).filter
    (fun r => r.loc_id != row.loc_id)

/-- Valid-code filter on the neighbor set (app.py:260). -/
def nearbyValidOf (valid_codes : List String) (nearby : List JoinedRow) :
    List JoinedRow :=
  nearby.filter (fun r => decide (r.use_code ∈ valid_codes))

/-- The body of the per-property loop of `perform_spatial_analysis`
(app.py:198-294).  `ridx` is `len(results)` at entry (used for the `id`
field).  `Except.error` is an exception reaching the per-property
handler; `Except.ok none` is a silent skip (`continue`); `Except.ok
(some s)` appends the suggestion `s`. -/
def classifyProperty (env : GeoEnv) (joined : List JoinedRow)
    (codes_dict : List (String × String)) (valid_codes : List String)
    (ridx : Nat) (row : Assessment) : Except String (Option Suggestion) :=
  match (joined.filter (fun r => r.loc_id == row.loc_id)).head? with
  | none => .ok none
  | some pg =>
    if env.hasCentroid pg.gid then
      match normalizeCoords env (env.centroidX pg.gid) (env.centroidY pg.gid) with
      | none => .ok none
      | some (lat, lng) =>
        if 41 ≤ lat ∧ lat ≤ 43 ∧ -74 ≤ lng ∧ lng ≤ -69 then
          if env.bufferFault pg.gid then .error ("buffer raised") else
          let nearby := nearbyParcels env joined pg row
          if nearby.isEmpty then .ok none
          else
            let nearby_valid := nearbyValidOf valid_codes nearby
            if nearby_valid.isEmpty then .ok none
            else
              match most_common1 (counterItems (nearby_valid.map (fun r => r.use_code))) with
              | none => .ok none
              | some (code, cnt) =>
                if code ∈ valid_codes then
                  .ok (some
                    { id := "prop_" ++ toString ridx
                      prop_id := row.prop_id
                      loc_id := row.loc_id
                      address := row.site_addr
                      current_code := row.use_code
                      suggested_code := code
                      confidence := (cnt : ℚ) / (nearby_valid.length : ℚ)
                      description := dictGet codes_dict code ("Unknown")
                      lat := lat
                      lng := lng
                      nearby_count := nearby.length })
                else .ok none
        else .ok none
    else .ok none

/-- The result-accumulating loop of `perform_spatial_analysis`
(app.py:188-294): exceptions and skips both `continue`; successes are
appended (so the next `id` index is the new `results.length`). -/
def spatialLoop (env : GeoEnv) (joined : List JoinedRow)
    (codes_dict : List (String × String)) (valid_codes : List String) :
    List Assessment → List Suggestion → List Suggestion
  | [], results => results
  | row :: rest, results =>
    match classifyProperty env joined codes_dict valid_codes results.length row with
    | .error _ => spatialLoop env joined codes_dict valid_codes rest results
    | .ok none => spatialLoop env joined codes_dict valid_codes rest results
    | .ok (some s) => spatialLoop env joined codes_dict valid_codes rest (results ++ [s])

/-- `perform_spatial_analysis` (app.py:159-301), results only (the
progress writes it interleaves are modelled by `runProgress`). -/
def perform_spatial_analysis (env : GeoEnv) (parcels : List Parcel)
    (assessment : List Assessment) (non_matching : List Assessment)
    (codes_dict : List (String × String)) (valid_codes : List String) :
    List Suggestion :=
  spatialLoop env (mergeParcels parcels assessment) codes_dict valid_codes
    non_matching []

/-- `((total - non_matching) / total) * 100` (app.py:150); `none` is the
`ZeroDivisionError` Python raises when `total = 0`. -/
def matchPercentage (total non_matching : Nat) : Option ℚ :=
  if total = 0 then none
  else some ((((total : ℚ) - (non_matching : ℚ)) / (total : ℚ)) * 100)

/-- `a` with its use code truncated to 3 characters (app.py:122). -/
def truncAssessment (a : Assessment) : Assessment :=
  { a with use_code := trunc3 a.use_code }

/-- Summary dict returned by `analyze_gdb` (app.py:143-152), minus the
raw `assessment_data` frame. -/
structure AnalyzeResult where
  total_properties : Nat
  non_matching_count : Nat
  analyzed_count : Nat
  high_confidence_count : Nat
  properties : List Suggestion
  match_percentage : ℚ
deriving Repr, DecidableEq

/-- `analyze_gdb` (app.py:82-157) from the point where both layers are
loaded; `none` is a raised exception (the only one reachable in this
fragment is the division by zero at app.py:150 when there are no
assessment rows). -/
def analyze_gdb (env : GeoEnv) (codes_dict : List (String × String))
    (parcels : List Parcel) (assessment : List Assessment) :
    Option AnalyzeResult :=
  let valid_codes := codes_dict.map (fun p => p.1)
  let assess := assessment.map truncAssessment
  let total_properties := assess.length
  let non_matching := assess.filter (fun a => !(decide (a.use_code ∈ valid_codes)))
  let non_matching_count := non_matching.length
  let props :=
    if non_matching_count > 0 then
      perform_spatial_analysis env parcels assess non_matching codes_dict valid_codes
    else []
  (matchPercentage total_properties non_matching_count).map (fun mp =>
    { total_properties := total_properties
      non_matching_count := non_matching_count
      analyzed_count := props.length
      high_confidence_count := (props.filter (fun p => decide (p.confidence > 7/10))).length
      properties := props
      match_percentage := mp })

/-- A CSV table as pandas presents it: header names plus rows aligned
with the header (the `getD` default below is unreachable for a
well-formed frame). -/
structure CsvTable where
  columns : List String
  rows : List (List String)
deriving Repr, DecidableEq

/-- `load_classification_codes` (app.py:36-53).  `src = none` is a
failed `read_csv`; a missing `Description` column (KeyError) or fewer
than two columns (IndexError) are also caught, so every failure path
returns the empty table.  The result keeps the zipped (code,
description) pairs; `dictGet` reproduces dict semantics on lookups. -/
def load_classification_codes (src : Option CsvTable) :
    List (String × String) :=
  match src with
  | none => []
  | some t =>
    let pick : Option (Nat × Nat) :=
      if "use_code" ∈ t.columns then
        match t.columns.findIdx? (fun c => c == "use_code"),
              t.columns.findIdx? (fun c => c == "Description") with
        | some i, some j => some (i, j)
        | _, _ => none
      else if "Code" ∈ t.columns then
        match t.columns.findIdx? (fun c => c == "Code"),
              t.columns.findIdx? (fun c => c == "Description") with
        | some i, some j => some (i, j)
        | _, _ => none
      else
        match t.columns with
        | _ :: _ :: _ => some (0, 1)
        | _ => none
    match pick with
    | none => []
    | some (i, j) => t.rows.map (fun r => (r.getD i (""), r.getD j ("")))

/-- The global progress dict (app.py:29-34). -/
structure Progress where
  current : Nat
  total : Nat
  status : String
  message : String
deriving Repr, DecidableEq

/-- Module-load value of `processing_progress`. -/
def processing_progress : Progress :=
  { current := 0, total := 0, status := "idle", message := "" }

/-- The successive values taken by `processing_progress` during one call
of `perform_spatial_analysis` over `n` non-matching rows ending with
`results_count` suggestions: the pre-loop writes (app.py:185-186), one
snapshot per loop iteration (app.py:190-191), and the completion writes
(app.py:296-298). -/
def spatialProgressTrace (p0 : Progress) (n results_count : Nat) :
    List Progress :=
  let p1 : Progress := { p0 with total := n, status := "processing" }
  let loopStates := (List.range n).map (fun i =>
    { p1 with
      current := i + 1
      message := "Analyzing property " ++ toString (i + 1) ++ " of " ++ toString n })
  let pLast := loopStates.getLastD p1
  (p1 :: loopStates) ++
    [{ pLast with
        status := "complete"
        message := "Analysis complete! Found " ++ toString results_count ++
          " properties with spatial suggestions." }]

/-- The progress writes of one `analyze_gdb` run: `perform_spatial_analysis`
is invoked — and the progress state touched — only when the non-matching
count is positive (app.py:132-138). -/
def runProgress (p0 : Progress) (non_matching_count results_count : Nat) :
    List Progress :=
  if non_matching_count = 0 then []
  else spatialProgressTrace p0 non_matching_count results_count

/-- The value of `processing_progress` after a run. -/
def finalProgress (p0 : Progress) (non_matching_count results_count : Nat) :
    Progress :=
  (runProgress p0 non_matching_count results_count).getLastD p0

/-- Index of the first occurrence of `c` in a list (a specification-side
measure for the tie-break order; equals the list length when absent). -/
def firstIdx (c : String) : List String → Nat
  | [] => 0
  | x :: rest => if x = c then 0 else firstIdx c rest + 1

/-! ### A concrete world, following the end-to-end scenario of spec §8 -/

/-- All geometries intersect the subject buffer; centroids sit at
`(x, y) = (-71, 42)` (already-geographic Massachusetts coordinates). -/
def envW : GeoEnv :=
  { hasCrs := true
    transform := fun p => some p
    hasCentroid := fun _ => true
    centroidX := fun _ => -71
    centroidY := fun _ => 42
    bufferIntersects := fun _ _ => true
    bufferFault := fun _ => false }

/-- Same world, but the geometry library raises at every `buffer` call. -/
def envF : GeoEnv := { envW with bufferFault := fun _ => true }

def parcelsW : List Parcel :=
  [⟨"L0", 0⟩, ⟨"L1", 1⟩, ⟨"L2", 2⟩, ⟨"L3", 3⟩, ⟨"L4", 4⟩]

def assessW : List Assessment :=
  [⟨"L0", "P0", "A0", "999"⟩, ⟨"L1", "P1", "A1", "101"⟩,
   ⟨"L2", "P2", "A2", "101"⟩, ⟨"L3", "P3", "A3", "102"⟩,
   ⟨"L4", "P4", "A4", "888"⟩]

def codesW : List (String × String) :=
  [("101", "Single Family"), ("102", "Two Family")]

def validW : List String := codesW.map (fun p => p.1)

def joinedW : List JoinedRow := mergeParcels parcelsW assessW

/-- The flagged subject property (`USE_CODE = "999"`). -/
def a0W : Assessment := ⟨"L0", "P0", "A0", "999"⟩

/-- A second flagged property (`USE_CODE = "888"`). -/
def a4W : Assessment := ⟨"L4", "P4", "A4", "888"⟩

/-- An assessment row whose code is valid. -/
def a101W : Assessment := ⟨"L1", "P1", "A1", "101"⟩

/-- The joined row holding the subject's geometry. -/
def pgW : JoinedRow := ⟨"L0", "P0", "A0", "999", 0⟩

/-- The suggestion emitted for `a0W` in `envW`: 4 neighbors after
self-exclusion, 3 of them valid (101, 101, 102), plurality 101 with 2
of 3 votes. -/
def sW : Suggestion :=
  { id := "prop_0"
    prop_id := "P0"
    loc_id := "L0"
    address := "A0"
    current_code := "999"
    suggested_code := "101"
    confidence := 2 / 3
    description := "Single Family"
    lat := 42
    lng := -71
    nearby_count := 4 }

/-- Result of `analyze_gdb envW codesW [] [a0W]`: one record, non-matching,
no parcels so nothing is analyzed. -/
def r3W : AnalyzeResult :=
  { total_properties := 1
    non_matching_count := 1
    analyzed_count := 0
    high_confidence_count := 0
    properties := []
    match_percentage := ((((1 : ℕ) : ℚ) - ((1 : ℕ) : ℚ)) / ((1 : ℕ) : ℚ)) * 100 }

/-- Result of `analyze_gdb envW codesW [] [a101W]`: one record, matching,
so the spatial pass never runs. -/
def r9W : AnalyzeResult :=
  { total_properties := 1
    non_matching_count := 0
    analyzed_count := 0
    high_confidence_count := 0
    properties := []
    match_percentage := ((((1 : ℕ) : ℚ) - ((0 : ℕ) : ℚ)) / ((1 : ℕ) : ℚ)) * 100 }

/-! ### Lemmas about the Counter embedding -/

theorem most_common1_ne_none {it : String × Nat} {rest : List (String × Nat)} :
    most_common1 (it :: rest) ≠ none := by
  rw [most_common1]
  cases h : most_common1 rest with
  | none => simp
  | some b => by_cases hb : b.2 > it.2 <;> simp [hb]

theorem most_common1_eq_none {items : List (String × Nat)} :
    most_common1 items = none ↔ items = [] := by
  cases items with
  | nil => simp [most_common1]
  | cons it rest => simpa using @most_common1_ne_none it rest

/-- `most_common1` returns an item of maximal count, located after a
prefix of items of strictly smaller count (the stable tie-break). -/
theorem most_common1_spec {items : List (String × Nat)} {w : String × Nat}
    (h : most_common1 items = some w) :
    (∀ q ∈ items, q.2 ≤ w.2) ∧
      ∃ p₁ p₂, items = p₁ ++ w :: p₂ ∧ ∀ q ∈ p₁, q.2 < w.2 := by
  induction items generalizing w with
  | nil => simp [most_common1] at h
  | cons it rest ih =>
    cases hr : most_common1 rest with
    | none =>
      rw [most_common1, hr] at h
      obtain rfl : it = w := by simpa using h
      obtain rfl : rest = [] := most_common1_eq_none.mp hr
      exact ⟨by simp, [], [], rfl, by simp⟩
    | some b =>
      rw [most_common1, hr] at h
      dsimp only at h
      by_cases hb : b.2 > it.2
      · rw [if_pos hb] at h
        obtain rfl : b = w := by simpa using h
        obtain ⟨hmax, p₁, p₂, heq, hsmall⟩ := ih hr
        refine ⟨?_, it :: p₁, p₂, by rw [heq, List.cons_append], ?_⟩
        · intro q hq
          rcases List.mem_cons.mp hq with rfl | hq
          · exact le_of_lt hb
          · exact hmax q hq
        · intro q hq
          rcases List.mem_cons.mp hq with rfl | hq
          · exact hb
          · exact hsmall q hq
      · rw [if_neg hb] at h
        obtain rfl : it = w := by simpa using h
        obtain ⟨hmax, _⟩ := ih hr
        refine ⟨?_, [], rest, rfl, by simp⟩
        intro q hq
        rcases List.mem_cons.mp hq with rfl | hq
        · exact le_refl _
        · exact le_trans (hmax q hq) (not_lt.mp hb)

theorem mem_dedupFirst {x : String} : ∀ {l : List String},
    x ∈ dedupFirst l ↔ x ∈ l
  | [] => by simp [dedupFirst]
  | c :: rest => by
    by_cases hx : x = c
    · subst hx; simp [dedupFirst]
    · simp [dedupFirst, List.mem_filter, bne_iff_ne, hx,
        mem_dedupFirst (l := rest)]

theorem dedupFirst_pairwise : ∀ l : List String,
    (dedupFirst l).Pairwise (fun a b => firstIdx a l < firstIdx b l)
  | [] => by simp [dedupFirst]
  | c :: rest => by
    rw [dedupFirst]
    refine List.pairwise_cons.mpr ⟨?_, ?_⟩
    · intro b hb
      have hbc : b ≠ c := by
        have := (List.mem_filter.mp hb).2
        simpa [bne_iff_ne] using this
      have hcb : ¬ c = b := fun hcb => hbc hcb.symm
      simp [firstIdx, hcb]
    · have hrec := dedupFirst_pairwise rest
      have hfilt := hrec.filter (fun x => x != c)
      refine hfilt.imp_of_mem ?_
      intro a b ha hb hab
      have hac : ¬ c = a := by
        have := (List.mem_filter.mp ha).2
        simp only [bne_iff_ne, ne_eq] at this
        exact fun hca => this hca.symm
      have hbc : ¬ c = b := by
        have := (List.mem_filter.mp hb).2
        simp only [bne_iff_ne, ne_eq] at this
        exact fun hcb => this hcb.symm
      have h1 : firstIdx a (c :: rest) = firstIdx a rest + 1 := by
        simp [firstIdx, hac]
      have h2 : firstIdx b (c :: rest) = firstIdx b rest + 1 := by
        simp [firstIdx, hbc]
      omega

/-- Full characterization of `Counter(l).most_common(1)`: the winner
occurs in `l`, carries its exact multiplicity, that multiplicity is
maximal, and among tied codes the winner occurs first. -/
theorem most_common1_counter {l : List String} {w : String} {n : Nat}
    (h : most_common1 (counterItems l) = some (w, n)) :
    w ∈ l ∧ n = l.count w ∧ (∀ c ∈ l, l.count c ≤ n) ∧
      ∀ c ∈ l, l.count c = n → firstIdx w l ≤ firstIdx c l := by
  obtain ⟨hmax, p₁, p₂, heq, hsmall⟩ := most_common1_spec h
  rw [counterItems] at heq
  have hwmem : (w, n) ∈ (dedupFirst l).map (fun c => (c, l.count c)) := by
    rw [heq]; exact List.mem_append_right _ (List.mem_cons_self _ _)
  obtain ⟨w', hw', hww⟩ := List.mem_map.mp hwmem
  rw [Prod.mk.injEq] at hww
  obtain ⟨rfl, rfl⟩ := hww
  have hwl : w' ∈ l := mem_dedupFirst.mp hw'
  have hcle : ∀ c ∈ l, l.count c ≤ l.count w' := by
    intro c hc
    have hm : (c, l.count c) ∈ (dedupFirst l).map (fun c => (c, l.count c)) :=
      List.mem_map_of_mem _ (mem_dedupFirst.mpr hc)
    rw [counterItems] at hmax
    exact hmax _ hm
  refine ⟨hwl, rfl, hcle, ?_⟩
  -- split the dedup list along the decomposition of the items list
  obtain ⟨d₁, d₂', hd, hmap1, hmap2⟩ := List.map_eq_append_iff.mp heq
  obtain ⟨e, d₂, hd₂', he, hmape⟩ := List.map_eq_cons_iff.mp hmap2
  obtain rfl : e = w' := by simpa using congrArg Prod.fst he
  subst hd₂'
  intro c hc hcount
  have hcdedup : c ∈ dedupFirst l := mem_dedupFirst.mpr hc
  rw [hd] at hcdedup
  have hpw := dedupFirst_pairwise l
  rw [hd] at hpw
  rcases List.mem_append.mp hcdedup with hc1 | hc2
  · -- impossible: items in the strict prefix have count < count w'
    exfalso
    have hmem : (c, l.count c) ∈ p₁ := by
      rw [← hmap1]; exact List.mem_map_of_mem _ hc1
    have := hsmall _ hmem
    simp only at this
    omega
  · rcases List.mem_cons.mp hc2 with rfl | hc2
    · exact le_refl _
    · have hp2 := (List.pairwise_append.mp hpw).2.1
      have := (List.pairwise_cons.mp hp2).1 c hc2
      exact le_of_lt this

/-! ### Inversion lemmas on the embedded program -/

/-- Everything that must have happened for `classifyProperty` to emit a
suggestion, and the exact shape of the emitted record. -/
theorem classifyProperty_ok_some {env : GeoEnv} {joined : List JoinedRow}
    {codes_dict : List (String × String)} {valid_codes : List String}
    {ridx : Nat} {row : Assessment} {s : Suggestion}
    (h : classifyProperty env joined codes_dict valid_codes ridx row = .ok (some s)) :
    ∃ pg lat lng code cnt,
      (joined.filter (fun r => r.loc_id == row.loc_id)).head? = some pg ∧
      env.hasCentroid pg.gid = true ∧
      normalizeCoords env (env.centroidX pg.gid) (env.centroidY pg.gid) = some (lat, lng) ∧
      (41 ≤ lat ∧ lat ≤ 43 ∧ -74 ≤ lng ∧ lng ≤ -69) ∧
      env.bufferFault pg.gid = false ∧
      nearbyParcels env joined pg row ≠ [] ∧
      nearbyValidOf valid_codes (nearbyParcels env joined pg row) ≠ [] ∧
      most_common1 (counterItems ((nearbyValidOf valid_codes
        (nearbyParcels env joined pg row)).map (fun r => r.use_code))) = some (code, cnt) ∧
      code ∈ valid_codes ∧
      s = { id := "prop_" ++ toString ridx
            prop_id := row.prop_id
            loc_id := row.loc_id
            address := row.site_addr
            current_code := row.use_code
            suggested_code := code
            confidence := (cnt : ℚ) /
              ((nearbyValidOf valid_codes (nearbyParcels env joined pg row)).length : ℚ)
            description := dictGet codes_dict code ("Unknown")
            lat := lat
            lng := lng
            nearby_count := (nearbyParcels env joined pg row).length } := by
  unfold classifyProperty at h
  cases hpg : (joined.filter (fun r => r.loc_id == row.loc_id)).head? with
  | none => rw [hpg] at h; exact absurd h (by simp)
  | some pg =>
    rw [hpg] at h
    dsimp only at h
    by_cases hcen : env.hasCentroid pg.gid
    case neg => rw [if_neg hcen] at h; exact absurd h (by simp)
    rw [if_pos hcen] at h
    cases hnorm : normalizeCoords env (env.centroidX pg.gid) (env.centroidY pg.gid) with
    | none => rw [hnorm] at h; exact absurd h (by simp)
    | some ll =>
      obtain ⟨lat, lng⟩ := ll
      rw [hnorm] at h
      try dsimp only at h
      by_cases hbox : 41 ≤ lat ∧ lat ≤ 43 ∧ -74 ≤ lng ∧ lng ≤ -69
      case neg => rw [if_neg hbox] at h; exact absurd h (by simp)
      rw [if_pos hbox] at h
      by_cases hfault : env.bufferFault pg.gid
      case pos => rw [if_pos hfault] at h; exact absurd h (by simp)
      rw [if_neg hfault] at h
      try dsimp only at h
      by_cases hemp : (nearbyParcels env joined pg row).isEmpty
      case pos => rw [if_pos hemp] at h; exact absurd h (by simp)
      rw [if_neg hemp] at h
      by_cases hvemp : (nearbyValidOf valid_codes (nearbyParcels env joined pg row)).isEmpty
      case pos => rw [if_pos hvemp] at h; exact absurd h (by simp)
      rw [if_neg hvemp] at h
      cases hmc : most_common1 (counterItems ((nearbyValidOf valid_codes
          (nearbyParcels env joined pg row)).map (fun r => r.use_code))) with
      | none => rw [hmc] at h; exact absurd h (by simp)
      | some p =>
        obtain ⟨code, cnt⟩ := p
        rw [hmc] at h
        try dsimp only at h
        by_cases hvalid : code ∈ valid_codes
        case neg => rw [if_neg hvalid] at h; exact absurd h (by simp)
        rw [if_pos hvalid] at h
        have hs := (Option.some.inj (Except.ok.inj h)).symm
        refine ⟨pg, lat, lng, code, cnt, rfl, hcen, hnorm, hbox,
          by simpa using hfault, ?_, ?_, hmc, hvalid, hs⟩
        · intro hnil
          rw [hnil] at hemp
          exact hemp rfl
        · intro hnil
          rw [hnil] at hvemp
          exact hvemp rfl

/-- `classifyProperty` never mentions state outside its arguments, so a
raised per-property exception leaves the loop exactly where it was: the
remaining rows are processed against the same accumulator. -/
theorem spatialLoop_error_skip {env : GeoEnv} {joined : List JoinedRow}
    {codes_dict : List (String × String)} {valid_codes : List String}
    {row : Assessment} {rest : List Assessment} {results : List Suggestion}
    {e : String}
    (h : classifyProperty env joined codes_dict valid_codes results.length row = .error e) :
    spatialLoop env joined codes_dict valid_codes (row :: rest) results =
      spatialLoop env joined codes_dict valid_codes rest results := by
  rw [spatialLoop, h]

theorem spatialLoop_length_le (env : GeoEnv) (joined : List JoinedRow)
    (codes_dict : List (String × String)) (valid_codes : List String) :
    ∀ (rows : List Assessment) (results : List Suggestion),
      (spatialLoop env joined codes_dict valid_codes rows results).length ≤
        results.length + rows.length
  | [], results => by simp [spatialLoop]
  | row :: rest, results => by
    rw [spatialLoop]
    cases classifyProperty env joined codes_dict valid_codes results.length row with
    | error e =>
      have := spatialLoop_length_le env joined codes_dict valid_codes rest results
      simpa using Nat.le_trans this (by omega)
    | ok o =>
      cases o with
      | none =>
        have := spatialLoop_length_le env joined codes_dict valid_codes rest results
        simpa using Nat.le_trans this (by omega)
      | some s =>
        have := spatialLoop_length_le env joined codes_dict valid_codes rest (results ++ [s])
        simp only [List.length_append, List.length_cons, List.length_nil] at this ⊢
        omega

/-- Shape of a successful `analyze_gdb` run. -/
theorem analyze_gdb_some {env : GeoEnv} {codes_dict : List (String × String)}
    {parcels : List Parcel} {assessment : List Assessment} {r : AnalyzeResult}
    (h : analyze_gdb env codes_dict parcels assessment = some r) :
    r.total_properties = (assessment.map truncAssessment).length ∧
    r.non_matching_count = ((assessment.map truncAssessment).filter
      (fun a => !(decide (a.use_code ∈ codes_dict.map (fun p => p.1))))).length ∧
    r.analyzed_count = r.properties.length ∧
    r.properties = (if 0 < r.non_matching_count then
      perform_spatial_analysis env parcels (assessment.map truncAssessment)
        ((assessment.map truncAssessment).filter
          (fun a => !(decide (a.use_code ∈ codes_dict.map (fun p => p.1)))))
        codes_dict (codes_dict.map (fun p => p.1)) else []) ∧
    0 < r.total_properties ∧
    r.match_percentage =
      (((r.total_properties : ℚ) - (r.non_matching_count : ℚ)) / (r.total_properties : ℚ)) * 100 := by
  simp only [analyze_gdb] at h
  obtain ⟨mp, hmp, hr⟩ := Option.map_eq_some'.mp h
  by_cases htot : (assessment.map truncAssessment).length = 0
  · rw [matchPercentage, if_pos htot] at hmp
    exact absurd hmp (by simp)
  · rw [matchPercentage, if_neg htot] at hmp
    have hmp' := (Option.some.inj hmp).symm
    subst hmp'
    subst hr
    exact ⟨rfl, rfl, rfl, rfl, Nat.pos_of_ne_zero htot, rfl⟩

/-! ### Claim theorems -/

/-- C1: for every emitted suggestion, the suggested code occurs among the
valid-code neighbor votes, its vote count is maximal, and among codes
tied at the maximal count the suggested one is the first encountered in
the original iteration order of the neighbor set. -/
theorem C1_suggested_code_is_plurality_with_first_tiebreak
    {env : GeoEnv} {joined : List JoinedRow}
    {codes_dict : List (String × String)} {valid_codes : List String}
    {ridx : Nat} {row : Assessment} {s : Suggestion}
    (h : classifyProperty env joined codes_dict valid_codes ridx row = .ok (some s)) :
    ∃ pg, (joined.filter (fun r => r.loc_id == row.loc_id)).head? = some pg ∧
      s.suggested_code ∈ (nearbyValidOf valid_codes
        (nearbyParcels env joined pg row)).map (fun r => r.use_code) ∧
      (∀ c ∈ (nearbyValidOf valid_codes
          (nearbyParcels env joined pg row)).map (fun r => r.use_code),
        ((nearbyValidOf valid_codes
          (nearbyParcels env joined pg row)).map (fun r => r.use_code)).count c ≤
        ((nearbyValidOf valid_codes
          (nearbyParcels env joined pg row)).map (fun r => r.use_code)).count
            s.suggested_code) ∧
      (∀ c ∈ (nearbyValidOf valid_codes
          (nearbyParcels env joined pg row)).map (fun r => r.use_code),
        ((nearbyValidOf valid_codes
          (nearbyParcels env joined pg row)).map (fun r => r.use_code)).count c =
        ((nearbyValidOf valid_codes
          (nearbyParcels env joined pg row)).map (fun r => r.use_code)).count
            s.suggested_code →
        firstIdx s.suggested_code ((nearbyValidOf valid_codes
          (nearbyParcels env joined pg row)).map (fun r => r.use_code)) ≤
        firstIdx c ((nearbyValidOf valid_codes
          (nearbyParcels env joined pg row)).map (fun r => r.use_code))) := by
  obtain ⟨pg, lat, lng, code, cnt, hpg, -, -, -, -, -, -, hmc, -, hs⟩ :=
    classifyProperty_ok_some h
  obtain ⟨hmem, hcnt, hmax, htie⟩ := most_common1_counter hmc
  subst hs
  dsimp only
  refine ⟨pg, hpg, hmem, ?_, ?_⟩
  · intro c hc
    have hle := hmax c hc
    rwa [hcnt] at hle
  · intro c hc hcount
    rw [← hcnt] at hcount
    exact htie c hc hcount

/-- C1 witness: in the concrete world the suggestion for `a0W` is `101`,
which indeed occurs among the votes `[101, 101, 102]` with maximal
count. -/
theorem C1_witness :
    ∃ pg, (joinedW.filter (fun r => r.loc_id == a0W.loc_id)).head? = some pg ∧
      sW.suggested_code ∈ (nearbyValidOf validW
        (nearbyParcels envW joinedW pg a0W)).map (fun r => r.use_code) ∧
      (∀ c ∈ (nearbyValidOf validW
          (nearbyParcels envW joinedW pg a0W)).map (fun r => r.use_code),
        ((nearbyValidOf validW
          (nearbyParcels envW joinedW pg a0W)).map (fun r => r.use_code)).count c ≤
        ((nearbyValidOf validW
          (nearbyParcels envW joinedW pg a0W)).map (fun r => r.use_code)).count
            sW.suggested_code) ∧
      (∀ c ∈ (nearbyValidOf validW
          (nearbyParcels envW joinedW pg a0W)).map (fun r => r.use_code),
        ((nearbyValidOf validW
          (nearbyParcels envW joinedW pg a0W)).map (fun r => r.use_code)).count c =
        ((nearbyValidOf validW
          (nearbyParcels envW joinedW pg a0W)).map (fun r => r.use_code)).count
            sW.suggested_code →
        firstIdx sW.suggested_code ((nearbyValidOf validW
          (nearbyParcels envW joinedW pg a0W)).map (fun r => r.use_code)) ≤
        firstIdx c ((nearbyValidOf validW
          (nearbyParcels envW joinedW pg a0W)).map (fun r => r.use_code))) :=
  @C1_suggested_code_is_plurality_with_first_tiebreak
    envW joinedW codesW validW 0 a0W sW rfl

/-- C2: every emitted suggestion has a valid suggested code and a
confidence equal to the winning vote count over the number of
valid-code neighbors, lying in the half-open interval (0, 1]; a
suggestion is only emitted when the valid-code neighbor set is
nonempty. -/
theorem C2_confidence_in_unit_interval
    {env : GeoEnv} {joined : List JoinedRow}
    {codes_dict : List (String × String)} {valid_codes : List String}
    {ridx : Nat} {row : Assessment} {s : Suggestion}
    (h : classifyProperty env joined codes_dict valid_codes ridx row = .ok (some s)) :
    s.suggested_code ∈ valid_codes ∧ 0 < s.confidence ∧ s.confidence ≤ 1 ∧
    ∃ pg, (joined.filter (fun r => r.loc_id == row.loc_id)).head? = some pg ∧
      nearbyValidOf valid_codes (nearbyParcels env joined pg row) ≠ [] ∧
      s.confidence =
        ((((nearbyValidOf valid_codes (nearbyParcels env joined pg row)).map
          (fun r => r.use_code)).count s.suggested_code : ℚ)) /
        (((nearbyValidOf valid_codes (nearbyParcels env joined pg row)).length : ℚ)) := by
  obtain ⟨pg, lat, lng, code, cnt, hpg, -, -, -, -, -, hvne, hmc, hvalid, hs⟩ :=
    classifyProperty_ok_some h
  obtain ⟨hmem, hcnt, hmax, htie⟩ := most_common1_counter hmc
  subst hs
  dsimp only
  have hlen : ((nearbyValidOf valid_codes (nearbyParcels env joined pg row)).map
      (fun r => r.use_code)).length =
      (nearbyValidOf valid_codes (nearbyParcels env joined pg row)).length :=
    List.length_map _ _
  have hcntpos : 0 < cnt := by
    rw [hcnt]; exact List.count_pos_iff.mpr hmem
  have hcntle : cnt ≤ (nearbyValidOf valid_codes (nearbyParcels env joined pg row)).length := by
    rw [hcnt, ← hlen]; exact List.count_le_length _ _
  have hlenpos : 0 < (nearbyValidOf valid_codes (nearbyParcels env joined pg row)).length :=
    lt_of_lt_of_le hcntpos hcntle
  have hlenposQ : (0 : ℚ) <
      ((nearbyValidOf valid_codes (nearbyParcels env joined pg row)).length : ℚ) := by
    exact_mod_cast hlenpos
  refine ⟨hvalid, ?_, ?_, pg, hpg, hvne, ?_⟩
  · exact div_pos (by exact_mod_cast hcntpos) hlenposQ
  · exact div_le_one_of_le₀ (by exact_mod_cast hcntle) (le_of_lt hlenposQ)
  · rw [hcnt]

/-- C2 witness: the concrete suggestion for `a0W` has confidence
`2 / 3 ∈ (0, 1]` with suggested code `101` in the valid set. -/
theorem C2_witness :
    sW.suggested_code ∈ validW ∧ 0 < sW.confidence ∧ sW.confidence ≤ 1 ∧
    ∃ pg, (joinedW.filter (fun r => r.loc_id == a0W.loc_id)).head? = some pg ∧
      nearbyValidOf validW (nearbyParcels envW joinedW pg a0W) ≠ [] ∧
      sW.confidence =
        ((((nearbyValidOf validW (nearbyParcels envW joinedW pg a0W)).map
          (fun r => r.use_code)).count sW.suggested_code : ℚ)) /
        (((nearbyValidOf validW (nearbyParcels envW joinedW pg a0W)).length : ℚ)) :=
  @C2_confidence_in_unit_interval
    envW joinedW codesW validW 0 a0W sW rfl

/-- C4: a small-magnitude centroid is taken as already geographic with
`lat = y, lng = x` and no reprojection; a large-magnitude centroid is
reprojected through the dataset CRS when present and skipped when the
CRS is missing; and every emitted suggestion's coordinates lie inside
the Massachusetts bounding box. -/
theorem C4_coordinate_normalization :
    (∀ (env : GeoEnv) (x y : ℚ), |x| ≤ 1000 → |y| ≤ 1000 →
      normalizeCoords env x y = some (y, x)) ∧
    (∀ (env : GeoEnv) (x y : ℚ), (|x| > 1000 ∨ |y| > 1000) → env.hasCrs = false →
      normalizeCoords env x y = none) ∧
    (∀ (env : GeoEnv) (x y lng lat : ℚ), (|x| > 1000 ∨ |y| > 1000) →
      env.hasCrs = true → env.transform (x, y) = some (lng, lat) →
      normalizeCoords env x y = some (lat, lng)) ∧
    (∀ (env : GeoEnv) (joined : List JoinedRow)
       (codes_dict : List (String × String)) (valid_codes : List String)
       (ridx : Nat) (row : Assessment) (s : Suggestion),
      classifyProperty env joined codes_dict valid_codes ridx row = .ok (some s) →
      41 ≤ s.lat ∧ s.lat ≤ 43 ∧ -74 ≤ s.lng ∧ s.lng ≤ -69) := by
  refine ⟨?_, ?_, ?_, ?_⟩
  · intro env x y hx hy
    have hcond : ¬(|x| > 1000 ∨ |y| > 1000) := by
      push_neg
      exact ⟨hx, hy⟩
    rw [normalizeCoords, if_neg hcond]
  · intro env x y hor hcrs
    rw [normalizeCoords, if_pos hor, hcrs]
    simp
  · intro env x y lng lat hor hcrs htr
    rw [normalizeCoords, if_pos hor, hcrs, htr]
    rfl
  · intro env joined codes_dict valid_codes ridx row s h
    obtain ⟨pg, lat, lng, code, cnt, -, -, -, hbox, -, -, -, -, -, hs⟩ :=
      classifyProperty_ok_some h
    subst hs
    exact hbox

/-- C4 witness: `(x, y) = (-71, 42)` is taken as already geographic; a
large centroid without CRS is skipped; a large centroid with CRS goes
through the transform; and the concrete emitted suggestion sits inside
the box. -/
theorem C4_witness :
    normalizeCoords envW (-71) 42 = some (42, -71) ∧
    normalizeCoords { envW with hasCrs := false } 2000 3000 = none ∧
    normalizeCoords envW 2000 3000 = some (3000, 2000) ∧
    (41 ≤ sW.lat ∧ sW.lat ≤ 43 ∧ -74 ≤ sW.lng ∧ sW.lng ≤ -69) := by
  refine ⟨?_, ?_, ?_, ?_⟩
  · exact C4_coordinate_normalization.1 envW (-71) 42 (by norm_num) (by norm_num)
  · exact C4_coordinate_normalization.2.1 { envW with hasCrs := false } 2000 3000
      (by norm_num) rfl
  · exact C4_coordinate_normalization.2.2.1 envW 2000 3000 2000 3000
      (by norm_num) rfl rfl
  · exact C4_coordinate_normalization.2.2.2 envW joinedW codesW validW 0 a0W sW rfl

/-- C5: no record carrying the subject's location key — including
duplicates of it — survives the self-exclusion filter, so an emitted
suggestion's neighbor count and vote set contain no self-keyed record. -/
theorem C5_self_exclusion :
    (∀ (env : GeoEnv) (joined : List JoinedRow) (pg : JoinedRow) (row : Assessment),
      ∀ r ∈ nearbyParcels env joined pg row, r.loc_id ≠ row.loc_id) ∧
    (∀ (env : GeoEnv) (joined : List JoinedRow)
       (codes_dict : List (String × String)) (valid_codes : List String)
       (ridx : Nat) (row : Assessment) (s : Suggestion),
      classifyProperty env joined codes_dict valid_codes ridx row = .ok (some s) →
      ∃ pg, (joined.filter (fun r => r.loc_id == row.loc_id)).head? = some pg ∧
        s.nearby_count = (nearbyParcels env joined pg row).length ∧
        ∀ r ∈ nearbyValidOf valid_codes (nearbyParcels env joined pg row),
          r.loc_id ≠ row.loc_id) := by
  have hbase : ∀ (env : GeoEnv) (joined : List JoinedRow) (pg : JoinedRow)
      (row : Assessment), ∀ r ∈ nearbyParcels env joined pg row,
      r.loc_id ≠ row.loc_id := by
    intro env joined pg row r hr
    have := (List.mem_filter.mp hr).2
    simpa [bne_iff_ne] using this
  refine ⟨hbase, ?_⟩
  intro env joined codes_dict valid_codes ridx row s h
  obtain ⟨pg, lat, lng, code, cnt, hpg, -, -, -, -, -, -, -, -, hs⟩ :=
    classifyProperty_ok_some h
  subst hs
  refine ⟨pg, hpg, rfl, ?_⟩
  intro r hr
  exact hbase env joined pg row r (List.mem_filter.mp hr).1

/-- C5 witness: in the concrete world all four surviving neighbors carry
keys other than the subject's `L0`, and the emitted record counts
exactly those four. -/
theorem C5_witness :
    (∀ r ∈ nearbyParcels envW joinedW pgW a0W, r.loc_id ≠ a0W.loc_id) ∧
    ∃ pg, (joinedW.filter (fun r => r.loc_id == a0W.loc_id)).head? = some pg ∧
      sW.nearby_count = (nearbyParcels envW joinedW pg a0W).length ∧
      ∀ r ∈ nearbyValidOf validW (nearbyParcels envW joinedW pg a0W),
        r.loc_id ≠ a0W.loc_id :=
  ⟨C5_self_exclusion.1 envW joinedW pgW a0W,
   C5_self_exclusion.2 envW joinedW codesW validW 0 a0W sW rfl⟩

/-- C6: the matching partition of `analyze_gdb` tests membership of the
3-character truncation of each assessment code (truncating before
filtering equals filtering on the truncated code), and every row of the
joined dataset carries a use code that is the truncation of some
assessment code — in particular re-truncating it is the identity — so
all neighbor-voting comparisons see 3-character codes. -/
theorem C6_truncation_invariant :
    (∀ (valid_codes : List String) (assessment : List Assessment),
      (assessment.map truncAssessment).filter
        (fun a => !(decide (a.use_code ∈ valid_codes))) =
      (assessment.filter
        (fun a => !(decide (trunc3 a.use_code ∈ valid_codes)))).map truncAssessment) ∧
    (∀ (parcels : List Parcel) (assessment : List Assessment),
      ∀ r ∈ mergeParcels parcels assessment,
        r.use_code = trunc3 r.use_code ∧
        ∃ a ∈ assessment, r.use_code = trunc3 a.use_code) := by
  constructor
  · intro valid_codes assessment
    rw [List.filter_map]
    rfl
  · intro parcels assessment r hr
    rw [mergeParcels] at hr
    obtain ⟨p, hp, hr2⟩ := List.mem_flatMap.mp hr
    obtain ⟨a, ha, hra⟩ := List.mem_map.mp hr2
    have huse : r.use_code = trunc3 a.use_code := by rw [← hra]
    refine ⟨?_, a, (List.mem_filter.mp ha).1, huse⟩
    rw [huse]
    simp [trunc3, List.take_take]

/-- C6 witness: the partition equality on the concrete assessment table,
and a concrete joined row (the subject's) whose code is already in
truncated form. -/
theorem C6_witness :
    ((assessW.map truncAssessment).filter
      (fun a => !(decide (a.use_code ∈ validW))) =
     (assessW.filter
      (fun a => !(decide (trunc3 a.use_code ∈ validW)))).map truncAssessment) ∧
    (pgW.use_code = trunc3 pgW.use_code ∧
      ∃ a ∈ assessW, pgW.use_code = trunc3 a.use_code) :=
  ⟨C6_truncation_invariant.1 validW assessW,
   C6_truncation_invariant.2 parcelsW assessW pgW (by decide)⟩

/-- C7: a failed reference-table read yields the empty table, and running
the analysis with that empty table marks every assessment record
non-matching. -/
theorem C7_empty_table_on_failure :
    load_classification_codes none = [] ∧
    (∀ (env : GeoEnv) (parcels : List Parcel) (assessment : List Assessment)
       (r : AnalyzeResult),
      analyze_gdb env (load_classification_codes none) parcels assessment = some r →
      r.non_matching_count = r.total_properties) := by
  refine ⟨rfl, ?_⟩
  intro env parcels assessment r h
  obtain ⟨htot, hnm, -, -, -, -⟩ := analyze_gdb_some h
  rw [htot, hnm]
  simp [load_classification_codes]

/-- C7 witness: the concrete one-record run against the failure-produced
empty table has `NonMatchingCount = TotalProperties`. -/
theorem C7_witness :
    load_classification_codes none = [] ∧
    r3W.non_matching_count = r3W.total_properties :=
  ⟨C7_empty_table_on_failure.1,
   C7_empty_table_on_failure.2 envW [] [a0W] r3W rfl⟩

/-- C8: a per-property exception only skips that property — the loop
continues over the remaining rows with an unchanged accumulator — and
every successful run reports `AnalyzedCount ≤ NonMatchingCount` rather
than surfacing the failure. -/
theorem C8_per_property_isolation :
    (∀ (env : GeoEnv) (joined : List JoinedRow)
       (codes_dict : List (String × String)) (valid_codes : List String)
       (row : Assessment) (rest : List Assessment)
       (results : List Suggestion) (e : String),
      classifyProperty env joined codes_dict valid_codes results.length row = .error e →
      spatialLoop env joined codes_dict valid_codes (row :: rest) results =
        spatialLoop env joined codes_dict valid_codes rest results) ∧
    (∀ (env : GeoEnv) (codes_dict : List (String × String))
       (parcels : List Parcel) (assessment : List Assessment) (r : AnalyzeResult),
      analyze_gdb env codes_dict parcels assessment = some r →
      r.analyzed_count ≤ r.non_matching_count) := by
  constructor
  · intro env joined codes_dict valid_codes row rest results e h
    exact spatialLoop_error_skip h
  · intro env codes_dict parcels assessment r h
    obtain ⟨-, hnm, hac, hprops, -, -⟩ := analyze_gdb_some h
    rw [hac, hprops]
    by_cases hpos : 0 < r.non_matching_count
    · rw [if_pos hpos, perform_spatial_analysis]
      have hle := spatialLoop_length_le env
        (mergeParcels parcels (assessment.map truncAssessment)) codes_dict
        (codes_dict.map (fun p => p.1))
        ((assessment.map truncAssessment).filter
          (fun a => !(decide (a.use_code ∈ codes_dict.map (fun p => p.1))))) []
      rw [hnm]
      simpa using hle
    · rw [if_neg hpos]
      exact Nat.zero_le _

/-- C8 witness: with the geometry library raising at every buffer call,
the loop on `[a0W, a4W]` equals the loop on `[a4W]`, and the concrete
successful run reports `AnalyzedCount ≤ NonMatchingCount`. -/
theorem C8_witness :
    spatialLoop envF joinedW codesW validW [a0W, a4W] [] =
      spatialLoop envF joinedW codesW validW [a4W] [] ∧
    r3W.analyzed_count ≤ r3W.non_matching_count :=
  ⟨C8_per_property_isolation.1 envF joinedW codesW validW a0W [a4W] [] ("buffer raised") rfl,
   C8_per_property_isolation.2 envW codesW [] [a0W] r3W rfl⟩

/-- C3 counterexample: with zero assessment records the computation
divides by zero — `analyze_gdb` aborts with no summary (`none`) and
`matchPercentage 0 0` is the raised `ZeroDivisionError`, not a value
fixed by convention. -/
theorem C3_counterexample :
    analyze_gdb envW codesW [] [] = none ∧ matchPercentage 0 0 = none :=
  ⟨rfl, rfl⟩

/-- C3 amended: every successful run satisfies
`MatchPercentage = ((Total − NonMatching) / Total) × 100` with
`Total > 0`; a run over zero assessment records raises a
division-by-zero error and produces no summary at all. -/
theorem C3_match_percentage_amended :
    (∀ (env : GeoEnv) (codes_dict : List (String × String))
       (parcels : List Parcel) (assessment : List Assessment) (r : AnalyzeResult),
      analyze_gdb env codes_dict parcels assessment = some r →
      0 < r.total_properties ∧
      r.match_percentage = (((r.total_properties : ℚ) - (r.non_matching_count : ℚ)) /
        (r.total_properties : ℚ)) * 100) ∧
    (∀ (env : GeoEnv) (codes_dict : List (String × String)) (parcels : List Parcel),
      analyze_gdb env codes_dict parcels [] = none) := by
  constructor
  · intro env codes_dict parcels assessment r h
    obtain ⟨-, -, -, -, hpos, hmp⟩ := analyze_gdb_some h
    exact ⟨hpos, hmp⟩
  · intro env codes_dict parcels
    simp [analyze_gdb, matchPercentage]

/-- C3 witness: the concrete one-record run has a positive total and the
stated percentage formula. -/
theorem C3_witness :
    0 < r3W.total_properties ∧
    r3W.match_percentage = (((r3W.total_properties : ℚ) - (r3W.non_matching_count : ℚ)) /
      (r3W.total_properties : ℚ)) * 100 :=
  C3_match_percentage_amended.1 envW codesW [] [a0W] r3W rfl

/-- C9 counterexample: a run whose non-matching set is empty never
invokes the spatial pass, so the progress state is neither initialized
nor finalized — after the run it still reads `idle`, not `complete`. -/
theorem C9_counterexample :
    analyze_gdb envW codesW [] [a101W] = some r9W ∧
    r9W.non_matching_count = 0 ∧
    runProgress processing_progress r9W.non_matching_count r9W.analyzed_count = [] ∧
    (finalProgress processing_progress r9W.non_matching_count r9W.analyzed_count).status
      = "idle" :=
  ⟨rfl, rfl, rfl, rfl⟩

/-- C9 amended: a run with a nonempty non-matching set writes
`status = "processing"` together with the total at spatial-pass start
and finalizes to `status = "complete"` at its end; a run with an empty
non-matching set leaves the progress state untouched. -/
theorem C9_progress_amended :
    (∀ (p0 : Progress) (results_count : Nat),
      runProgress p0 0 results_count = []) ∧
    (∀ (p0 : Progress) (n results_count : Nat), 0 < n →
      (runProgress p0 n results_count).head? =
        some { p0 with total := n, status := "processing" } ∧
      ((runProgress p0 n results_count).getLast?).map Progress.status =
        some ("complete")) := by
  constructor
  · intro p0 results_count
    simp [runProgress]
  · intro p0 n results_count hn
    rw [runProgress, if_neg (Nat.pos_iff_ne_zero.mp hn), spatialProgressTrace]
    constructor
    · rw [List.cons_append, List.head?_cons]
    · rw [List.getLast?_concat]
      rfl

/-- C9 witness: a two-property run starting from the module-load state
begins processing with total 2 and ends complete; a zero-property run
writes nothing. -/
theorem C9_witness :
    runProgress processing_progress 0 0 = [] ∧
    (runProgress processing_progress 2 1).head? =
      some { processing_progress with total := 2, status := "processing" } ∧
    ((runProgress processing_progress 2 1).getLast?).map Progress.status =
      some ("complete") :=
  ⟨C9_progress_amended.1 processing_progress 0,
   (C9_progress_amended.2 processing_progress 2 1 (by norm_num)).1,
   (C9_progress_amended.2 processing_progress 2 1 (by norm_num)).2⟩

/-- C10: the emitted `nearby_count` is the size of the self-excluded
buffer neighborhood including invalid-code neighbors, hence at least the
valid-neighbor count used as the confidence denominator; and in the
concrete world confidence × nearby_count differs from the winning vote
count. -/
theorem C10_nearby_count_includes_invalid :
    (∀ (env : GeoEnv) (joined : List JoinedRow)
       (codes_dict : List (String × String)) (valid_codes : List String)
       (ridx : Nat) (row : Assessment) (s : Suggestion),
      classifyProperty env joined codes_dict valid_codes ridx row = .ok (some s) →
      ∃ pg, (joined.filter (fun r => r.loc_id == row.loc_id)).head? = some pg ∧
        s.nearby_count = (nearbyParcels env joined pg row).length ∧
        (nearbyValidOf valid_codes (nearbyParcels env joined pg row)).length ≤
          s.nearby_count) ∧
    (∃ s, classifyProperty envW joinedW codesW validW 0 a0W = .ok (some s) ∧
      s.confidence * (s.nearby_count : ℚ) ≠
        ((((nearbyValidOf validW (nearbyParcels envW joinedW pgW a0W)).map
          (fun r => r.use_code)).count s.suggested_code : ℚ))) := by
  constructor
  · intro env joined codes_dict valid_codes ridx row s h
    obtain ⟨pg, lat, lng, code, cnt, hpg, -, -, -, -, -, -, -, -, hs⟩ :=
      classifyProperty_ok_some h
    subst hs
    refine ⟨pg, hpg, rfl, ?_⟩
    rw [nearbyValidOf]
    exact List.length_filter_le _ _
  · refine ⟨sW, rfl, ?_⟩
    have hcount : ((((nearbyValidOf validW (nearbyParcels envW joinedW pgW a0W)).map
        (fun r => r.use_code)).count sW.suggested_code : ℚ)) = (2 : ℚ) := by
      norm_num [show (((nearbyValidOf validW (nearbyParcels envW joinedW pgW a0W)).map
        (fun r => r.use_code)).count sW.suggested_code) = 2 from rfl]
    rw [hcount]
    norm_num [sW]

/-- C10 witness: the concrete emission has 4 nearby neighbors but only 3
valid ones. -/
theorem C10_witness :
    ∃ pg, (joinedW.filter (fun r => r.loc_id == a0W.loc_id)).head? = some pg ∧
      sW.nearby_count = (nearbyParcels envW joinedW pg a0W).length ∧
      (nearbyValidOf validW (nearbyParcels envW joinedW pg a0W)).length ≤
        sW.nearby_count :=
  C10_nearby_count_includes_invalid.1 envW joinedW codesW validW 0 a0W sW rfl

end MAGIS
